import Mathlib

/-!
Verification of the keystone auth module (packages-next/auth/src/types.ts).

The definitions below are a shallow embedding of the module's core logic:
token generation (`generateToken`), the error-message lookup
(`getErrorMessage`), password authentication (`attemptAuthentication`),
token issuance (`updateAuthToken`) and the three GraphQL mutation
resolvers.  External collaborators (storage lookup, secret hashing and
comparison, session issuance, GraphQL write results) are modelled as
explicit parameters; effects (hash calls, the elevated-privilege write,
console logging, session and send-token calls) are returned as data so
that theorems can talk about them.
-/

namespace KeystoneAuth

/-- The closed error taxonomy from the `AuthErrorCode` enum. -/
inductive AuthErrorCode where
  | PASSWORD_AUTH_FAILURE
  | PASSWORD_AUTH_IDENTITY_NOT_FOUND
  | PASSWORD_AUTH_SECRET_NOT_SET
  | PASSWORD_AUTH_MULTIPLE_IDENTITY_MATCHES
  | PASSWORD_AUTH_SECRET_MISMATCH
  | AUTH_TOKEN_REQUEST_IDENTITY_NOT_FOUND
  | AUTH_TOKEN_REQUEST_MULTIPLE_IDENTITY_MATCHES
  | AUTH_TOKEN_REDEMPTION_INVALID_TOKEN
  | AUTH_TOKEN_REDEMPTION_TOKEN_EXPIRED
  | AUTH_TOKEN_REDEMPTION_TOKEN_REDEEMED
  | AUTH_TOKEN_INTERNAL_ERROR
  | CUSTOM_ERROR
deriving DecidableEq

/-- Wire-stable name of a code, modelling the TS reverse enum lookup
`AuthErrorCode[code]` used by the resolvers. -/
def authErrorCodeName : AuthErrorCode → String
  | .PASSWORD_AUTH_FAILURE => "PASSWORD_AUTH_FAILURE"
  | .PASSWORD_AUTH_IDENTITY_NOT_FOUND => "PASSWORD_AUTH_IDENTITY_NOT_FOUND"
  | .PASSWORD_AUTH_SECRET_NOT_SET => "PASSWORD_AUTH_SECRET_NOT_SET"
  | .PASSWORD_AUTH_MULTIPLE_IDENTITY_MATCHES => "PASSWORD_AUTH_MULTIPLE_IDENTITY_MATCHES"
  | .PASSWORD_AUTH_SECRET_MISMATCH => "PASSWORD_AUTH_SECRET_MISMATCH"
  | .AUTH_TOKEN_REQUEST_IDENTITY_NOT_FOUND => "AUTH_TOKEN_REQUEST_IDENTITY_NOT_FOUND"
  | .AUTH_TOKEN_REQUEST_MULTIPLE_IDENTITY_MATCHES => "AUTH_TOKEN_REQUEST_MULTIPLE_IDENTITY_MATCHES"
  | .AUTH_TOKEN_REDEMPTION_INVALID_TOKEN => "AUTH_TOKEN_REDEMPTION_INVALID_TOKEN"
  | .AUTH_TOKEN_REDEMPTION_TOKEN_EXPIRED => "AUTH_TOKEN_REDEMPTION_TOKEN_EXPIRED"
  | .AUTH_TOKEN_REDEMPTION_TOKEN_REDEEMED => "AUTH_TOKEN_REDEMPTION_TOKEN_REDEEMED"
  | .AUTH_TOKEN_INTERNAL_ERROR => "AUTH_TOKEN_INTERNAL_ERROR"
  | .CUSTOM_ERROR => "CUSTOM_ERROR"

/-- An identity record, with the per-token-type fields
`{type}Token` / `{type}IssuedAt` / `{type}RedeemedAt`.  Timestamps are
modelled as natural numbers. -/
structure Item where
  id : Nat
  identity : String
  secret : Option String := none
  passwordResetToken : Option String := none
  passwordResetIssuedAt : Option Nat := none
  passwordResetRedeemedAt : Option Nat := none
  magicAuthToken : Option String := none
  magicAuthIssuedAt : Option Nat := none
  magicAuthRedeemedAt : Option Nat := none
deriving DecidableEq

/-- The storage lookup `list.adapter.find({ [identityField]: identity })`:
all records whose identity field equals the supplied value. -/
def findByIdentity (store : List Item) (identity : String) : List Item :=
  store.filter (fun it => it.identity == identity)

/-- JS falsiness of the stored secret field, as tested by
`!items[0][secretField]`: absent and empty string are both falsy. -/
def isFalsySecret : Option String → Bool
  | none => true
  | some s => s == ""

/-- The standard base64 alphabet used by `Buffer.toString(base64)`. -/
def base64Alphabet : String :=
  "ABCDEFGHIJKLMNOPQRSTUVWXYZabcdefghijklmnopqrstuvwxyz0123456789+/"

/-- Character for a 6-bit group. -/
def b64Char (n : Nat) : Char :=
  base64Alphabet.toList.getD n 'A'

/-- Base64 encoding of a byte list, with trailing padding, as produced by
`randomBytes(n).toString(base64)`. -/
def base64Encode : List Nat → List Char
  | [] => []
  | [b1] => [b64Char (b1 / 4), b64Char (b1 % 4 * 16), '=', '=']
  | [b1, b2] => [b64Char (b1 / 4), b64Char (b1 % 4 * 16 + b2 / 16), b64Char (b2 % 16 * 4), '=']
  | b1 :: b2 :: b3 :: rest =>
      b64Char (b1 / 4) :: b64Char (b1 % 4 * 16 + b2 / 16) ::
        b64Char (b2 % 16 * 4 + b3 / 64) :: b64Char (b3 % 64) :: base64Encode rest

/-- `generateToken` from the source: base64-encode the random bytes,
truncate to `length` characters, then strip every character that is not
ASCII alphanumeric.  The random bytes produced by `randomBytes(length)`
are an explicit argument. -/
def generateToken (length : Nat) (bytes : List Nat) : String :=
  String.mk (((base64Encode bytes).take length).filter Char.isAlphanum)

/-- `getErrorMessage` from the source: total lookup from code to a
human-readable message; codes not handled by the switch fall through to
the generic fallback. -/
def getErrorMessage (identityField secretField itemSingular itemPlural : String)
    (code : AuthErrorCode) : String :=
  match code with
  | .PASSWORD_AUTH_FAILURE => "Authentication failed"
  | .PASSWORD_AUTH_IDENTITY_NOT_FOUND =>
      "The " ++ identityField ++ " value provided didn\x27t identify any " ++ itemPlural
  | .PASSWORD_AUTH_SECRET_NOT_SET =>
      "The " ++ itemSingular ++ " identified has no " ++ secretField ++
        " set so can not be authenticated"
  | .PASSWORD_AUTH_MULTIPLE_IDENTITY_MATCHES =>
      "The " ++ identityField ++ " value provided identified more than one " ++ itemSingular
  | .PASSWORD_AUTH_SECRET_MISMATCH => "The " ++ secretField ++ " provided is incorrect"
  | .AUTH_TOKEN_REQUEST_IDENTITY_NOT_FOUND =>
      "The " ++ identityField ++ " value provided didn\x27t identify any " ++ itemPlural
  | .AUTH_TOKEN_REQUEST_MULTIPLE_IDENTITY_MATCHES =>
      "The " ++ identityField ++ " value provided identified more than one " ++ itemSingular
  | .AUTH_TOKEN_REDEMPTION_INVALID_TOKEN => "The token provided is invalid"
  | .AUTH_TOKEN_REDEMPTION_TOKEN_EXPIRED => "The token provided has expired"
  | .AUTH_TOKEN_REDEMPTION_TOKEN_REDEEMED => "The token provided has already been redeemed"
  | .AUTH_TOKEN_INTERNAL_ERROR =>
      "An unexpected error condition was encountered while creating or redeeming an auth token"
  | .CUSTOM_ERROR => "No error message defined"

/-- The fixed placeholder hashed by the timing-attack mitigation. -/
def simulatedPassword : String := "simulated-password-to-counter-timing-attack"

/-- Result of `attemptAuthentication`: `{success: true, item}` or
`{success: false, code}`. -/
inductive AttemptResult where
  | success (item : Item)
  | failure (code : AuthErrorCode)
deriving DecidableEq

/-- The specific classification computed by `attemptAuthentication`
before the protect-identities policy is applied: zero matches, a unique
match with falsy secret, or multiple matches. -/
def classifyIdentity (store : List Item) (identity : String) : Option AuthErrorCode :=
  match findByIdentity store identity with
  | [] => some .PASSWORD_AUTH_IDENTITY_NOT_FOUND
  | [item] => if isFalsySecret item.secret then some .PASSWORD_AUTH_SECRET_NOT_SET else none
  | _ :: _ :: _ => some .PASSWORD_AUTH_MULTIPLE_IDENTITY_MATCHES

/-- `attemptAuthentication` from the source.  `cmp` is the secret
field's constant-work comparison `compare(plaintext, storedHash)`.  The
second component lists the arguments of every `generateHash` call made
(the dummy-hash timing mitigation), in order. -/
def attemptAuthentication (protectIdentities : Bool) (cmp : String → String → Bool)
    (store : List Item) (identity plaintext : String) : AttemptResult × List String :=
  match findByIdentity store identity with
  | [] =>
      (AttemptResult.failure
          (if protectIdentities then .PASSWORD_AUTH_FAILURE else .PASSWORD_AUTH_IDENTITY_NOT_FOUND),
        if protectIdentities then [simulatedPassword] else [])
  | [item] =>
      if isFalsySecret item.secret then
        (AttemptResult.failure
            (if protectIdentities then .PASSWORD_AUTH_FAILURE else .PASSWORD_AUTH_SECRET_NOT_SET),
          if protectIdentities then [simulatedPassword] else [])
      else if cmp plaintext (item.secret.getD "") then
        (AttemptResult.success item, [])
      else
        (AttemptResult.failure
            (if protectIdentities then .PASSWORD_AUTH_FAILURE else .PASSWORD_AUTH_SECRET_MISMATCH),
          [])
  | _ :: _ :: _ =>
      (AttemptResult.failure
          (if protectIdentities then .PASSWORD_AUTH_FAILURE
            else .PASSWORD_AUTH_MULTIPLE_IDENTITY_MATCHES),
        if protectIdentities then [simulatedPassword] else [])

/-- A GraphQL execution error as returned by `executeGraphQL`; `stack`
is the empty string when absent. -/
structure GqlError where
  message : String
  stack : String := ""
deriving DecidableEq

/-- The value passed to `console.error`: `errors[0].stack || errors[0].message`. -/
def consoleErrorArg (e : GqlError) : String :=
  if e.stack = "" then e.message else e.stack

/-- Token type for the two issuance flows. -/
inductive TokenType where
  | passwordReset
  | magicAuth
deriving DecidableEq

/-- The elevated-privilege GraphQL write issued by `updateAuthToken`:
`createContext({skipAccessControl: true})` running the hard-coded
`updateUser(id, data)` mutation, so the target list is the literal
string User. -/
structure WriteCall where
  skipAccessControl : Bool
  targetList : String
  id : Nat
  tokenType : TokenType
  token : String
  issuedAt : Nat
deriving DecidableEq

/-- Result of `updateAuthToken`: `{success: true, itemId, token}` or
`{success: false, code?}` where the code may be absent. -/
inductive TokenResult where
  | success (itemId : Nat) (token : String)
  | failure (code : Option AuthErrorCode)
deriving DecidableEq

/-- `updateAuthToken` from the source.  `bytes` models the output of
`randomBytes(20)` inside `generateToken(20)`; `now` is the current
timestamp; `writeErrors` is the `errors` array returned by the GraphQL
write.  Returns the result, the write call made (if any), and the list
of strings logged with `console.error`. -/
def updateAuthToken (protectIdentities : Bool) (tokenType : TokenType) (identity : String)
    (list : List Item) (bytes : List Nat) (now : Nat) (writeErrors : List GqlError) :
    TokenResult × Option WriteCall × List String :=
  match findByIdentity list identity with
  | [] =>
      (TokenResult.failure
          (if protectIdentities then none else some .AUTH_TOKEN_REQUEST_IDENTITY_NOT_FOUND),
        none, [])
  | [item] =>
      let token := generateToken 20 bytes
      let call : WriteCall :=
        { skipAccessControl := true
          targetList := "User"
          id := item.id
          tokenType := tokenType
          token := token
          issuedAt := now }
      match writeErrors with
      | [] => (TokenResult.success item.id token, some call, [])
      | e :: _ =>
          (TokenResult.failure (some .AUTH_TOKEN_INTERNAL_ERROR), some call, [consoleErrorArg e])
  | _ :: _ :: _ =>
      (TokenResult.failure
          (if protectIdentities then none else some .AUTH_TOKEN_REQUEST_MULTIPLE_IDENTITY_MATCHES),
        none, [])

/-- The field update performed by the `updateUser` mutation data:
`{type}Token = token`, `{type}IssuedAt = now`, `{type}RedeemedAt = null`. -/
def setTokenFields (t : TokenType) (token : String) (now : Nat) (it : Item) : Item :=
  match t with
  | .passwordReset =>
      { it with
        passwordResetToken := some token
        passwordResetIssuedAt := some now
        passwordResetRedeemedAt := none }
  | .magicAuth =>
      { it with
        magicAuthToken := some token
        magicAuthIssuedAt := some now
        magicAuthRedeemedAt := none }

/-- Effect of a `WriteCall` on a store: update-by-id. -/
def applyWriteCall (store : List Item) (c : WriteCall) : List Item :=
  store.map (fun it => if it.id = c.id then setTokenFields c.tokenType c.token c.issuedAt it else it)

/-- The static configuration captured by the schema-extension closure. -/
structure AuthSchemaConfig where
  listKey : String
  identityField : String
  secretField : String
  protectIdentities : Bool
deriving DecidableEq

/-- Arguments of a `ctx.startSession` call. -/
structure SessionCall where
  listKey : String
  itemId : Nat
deriving DecidableEq

/-- Arguments of a `sendToken` delivery callback call. -/
structure SendTokenCall where
  itemId : Nat
  identity : String
  token : String
deriving DecidableEq

/-- Payload of the password-authentication mutation: the success type
`{token, item}` or the failure type `{code, message}` (code serialized
by name). -/
inductive AuthPayload where
  | success (token : String) (item : Item)
  | failure (code : String) (message : String)
deriving DecidableEq

/-- The `authenticateItemWithPassword` resolver.  `lists` maps a list
key to its store; `startSession` is the host session-issuance
capability.  Note the source calls `ctx.startSession({listKey: User,
itemId})` with the literal list key User, not `cfg.listKey`.  Returns
the payload and the session call made (if any). -/
def authenticateItemWithPassword (cfg : AuthSchemaConfig) (cmp : String → String → Bool)
    (lists : String → List Item) (startSession : SessionCall → String)
    (identity plaintext singular plural : String) : AuthPayload × Option SessionCall :=
  match (attemptAuthentication cfg.protectIdentities cmp (lists cfg.listKey) identity plaintext).1 with
  | .failure code =>
      (AuthPayload.failure (authErrorCodeName code)
          (getErrorMessage cfg.identityField cfg.secretField singular plural code),
        none)
  | .success item =>
      let call : SessionCall := { listKey := "User", itemId := item.id }
      (AuthPayload.success (startSession call) item, some call)

/-- Common body of the `sendItemPasswordResetLink` and
`sendItemMagicAuthLink` resolvers: run `updateAuthToken` on the
configured list, call `sendToken` on success, and return `{code,
message}` only when the result is a failure carrying a code, else the
empty payload (`none`).  Returns the payload, the `sendToken` call made
(if any) and the write call made (if any). -/
def sendLinkResolver (cfg : AuthSchemaConfig) (t : TokenType) (lists : String → List Item)
    (identity : String) (bytes : List Nat) (now : Nat) (writeErrors : List GqlError)
    (singular plural : String) :
    Option (String × String) × Option SendTokenCall × Option WriteCall :=
  let r := updateAuthToken cfg.protectIdentities t identity (lists cfg.listKey) bytes now writeErrors
  let sent : Option SendTokenCall :=
    match r.1 with
    | .success itemId token => some { itemId := itemId, identity := identity, token := token }
    | .failure _ => none
  let payload : Option (String × String) :=
    match r.1 with
    | .failure (some code) =>
        some (authErrorCodeName code,
          getErrorMessage cfg.identityField cfg.secretField singular plural code)
    | _ => none
  (payload, sent, r.2.1)

/-- The `sendItemPasswordResetLink` resolver. -/
def sendItemPasswordResetLink (cfg : AuthSchemaConfig) (lists : String → List Item)
    (identity : String) (bytes : List Nat) (now : Nat) (writeErrors : List GqlError)
    (singular plural : String) :
    Option (String × String) × Option SendTokenCall × Option WriteCall :=
  sendLinkResolver cfg TokenType.passwordReset lists identity bytes now writeErrors singular plural

/-- The `sendItemMagicAuthLink` resolver. -/
def sendItemMagicAuthLink (cfg : AuthSchemaConfig) (lists : String → List Item)
    (identity : String) (bytes : List Nat) (now : Nat) (writeErrors : List GqlError)
    (singular plural : String) :
    Option (String × String) × Option SendTokenCall × Option WriteCall :=
  sendLinkResolver cfg TokenType.magicAuth lists identity bytes now writeErrors singular plural

/-- The `{type}Token` field of an item. -/
def tokenOf (t : TokenType) (it : Item) : Option String :=
  match t with
  | .passwordReset => it.passwordResetToken
  | .magicAuth => it.magicAuthToken

/-- The `{type}IssuedAt` field of an item. -/
def issuedAtOf (t : TokenType) (it : Item) : Option Nat :=
  match t with
  | .passwordReset => it.passwordResetIssuedAt
  | .magicAuth => it.magicAuthIssuedAt

/-- The `{type}RedeemedAt` field of an item. -/
def redeemedAtOf (t : TokenType) (it : Item) : Option Nat :=
  match t with
  | .passwordReset => it.passwordResetRedeemedAt
  | .magicAuth => it.magicAuthRedeemedAt

/-- Set the `{type}RedeemedAt` field of an item. -/
def setRedeemedAt (t : TokenType) (now : Nat) (it : Item) : Item :=
  match t with
  | .passwordReset => { it with passwordResetRedeemedAt := some now }
  | .magicAuth => { it with magicAuthRedeemedAt := some now }

/-- Result of a redemption attempt. -/
inductive RedemptionResult where
  | success
  | failure (code : AuthErrorCode)
deriving DecidableEq

/-- Modelled from the spec: token redemption is part of the Token
Issuer/Redeemer contract (spec section 4.2) but is not implemented in
the source files present; the spec says a token is valid iff it matches
the stored value, RedeemedAt is unset, and now minus IssuedAt is within
tokensValidForMins, with violations mapped to INVALID_TOKEN,
TOKEN_REDEEMED and TOKEN_EXPIRED, and successful redemption setting
RedeemedAt = now.  A missing IssuedAt is treated as outside the
validity window. -/
def redeemAuthToken (t : TokenType) (validForMins : Nat) (tok : String) (now : Nat)
    (item : Item) : RedemptionResult × Item :=
  if tokenOf t item = some tok then
    if (redeemedAtOf t item).isSome then
      (RedemptionResult.failure .AUTH_TOKEN_REDEMPTION_TOKEN_REDEEMED, item)
    else
      match issuedAtOf t item with
      | some iss =>
          if now - iss ≤ validForMins then (RedemptionResult.success, setRedeemedAt t now item)
          else (RedemptionResult.failure .AUTH_TOKEN_REDEMPTION_TOKEN_EXPIRED, item)
      | none => (RedemptionResult.failure .AUTH_TOKEN_REDEMPTION_TOKEN_EXPIRED, item)
  else (RedemptionResult.failure .AUTH_TOKEN_REDEMPTION_INVALID_TOKEN, item)

/-- C1: for every call to `attemptAuthentication`, a lookup with zero
records yields `Failure(PASSWORD_AUTH_IDENTITY_NOT_FOUND)` when
identity-protection is disabled and `Failure(PASSWORD_AUTH_FAILURE)`
when enabled; a unique record with unset secret yields
`Failure(PASSWORD_AUTH_SECRET_NOT_SET)` / `Failure(PASSWORD_AUTH_FAILURE)`;
two or more records yield `Failure(PASSWORD_AUTH_MULTIPLE_IDENTITY_MATCHES)`
/ `Failure(PASSWORD_AUTH_FAILURE)`. -/
theorem C1_attemptAuthentication_classified_failures
    (protect : Bool) (cmp : String → String → Bool) (store : List Item)
    (identity plaintext : String) :
    (findByIdentity store identity = [] →
      (attemptAuthentication protect cmp store identity plaintext).1
        = AttemptResult.failure
            (if protect then .PASSWORD_AUTH_FAILURE else .PASSWORD_AUTH_IDENTITY_NOT_FOUND))
    ∧ (∀ it, findByIdentity store identity = [it] → it.secret = none →
      (attemptAuthentication protect cmp store identity plaintext).1
        = AttemptResult.failure
            (if protect then .PASSWORD_AUTH_FAILURE else .PASSWORD_AUTH_SECRET_NOT_SET))
    ∧ (∀ a b rest, findByIdentity store identity = a :: b :: rest →
      (attemptAuthentication protect cmp store identity plaintext).1
        = AttemptResult.failure
            (if protect then .PASSWORD_AUTH_FAILURE
              else .PASSWORD_AUTH_MULTIPLE_IDENTITY_MATCHES)) := by
  refine ⟨fun h => ?_, fun it h hsec => ?_, fun a b rest h => ?_⟩
  · simp [attemptAuthentication, h]
  · simp [attemptAuthentication, h, isFalsySecret, hsec]
  · simp [attemptAuthentication, h]

/-- Concrete instance of C1: empty store, and a unique match with unset
secret under identity-protection. -/
theorem C1_attemptAuthentication_classified_failures_witness :
    (attemptAuthentication false (fun _ _ => false) [] "a@x.com" "pw").1
        = AttemptResult.failure .PASSWORD_AUTH_IDENTITY_NOT_FOUND
    ∧ (attemptAuthentication true (fun _ _ => false)
        [{ id := 1, identity := "a@x.com" }] "a@x.com" "pw").1
        = AttemptResult.failure .PASSWORD_AUTH_FAILURE :=
  ⟨(C1_attemptAuthentication_classified_failures false (fun _ _ => false)
      [] "a@x.com" "pw").1 (by decide),
    (C1_attemptAuthentication_classified_failures true (fun _ _ => false)
      [{ id := 1, identity := "a@x.com" }] "a@x.com" "pw").2.1
      { id := 1, identity := "a@x.com" } (by decide) rfl⟩

/-- C2: for a unique match with a (truthy) secret set, a successful
constant-work comparison yields `Success` carrying the matched record,
and a failed comparison yields `Failure(PASSWORD_AUTH_SECRET_MISMATCH)`
when identity-protection is disabled and `Failure(PASSWORD_AUTH_FAILURE)`
when enabled. -/
theorem C2_attemptAuthentication_unique_match
    (protect : Bool) (cmp : String → String → Bool) (store : List Item)
    (identity plaintext : String) (it : Item)
    (h : findByIdentity store identity = [it]) (hs : isFalsySecret it.secret = false) :
    (cmp plaintext (it.secret.getD "") = true →
      (attemptAuthentication protect cmp store identity plaintext).1
        = AttemptResult.success it)
    ∧ (cmp plaintext (it.secret.getD "") = false →
      (attemptAuthentication protect cmp store identity plaintext).1
        = AttemptResult.failure
            (if protect then .PASSWORD_AUTH_FAILURE else .PASSWORD_AUTH_SECRET_MISMATCH)) := by
  constructor <;> intro hc <;> simp [attemptAuthentication, h, hs, hc]

/-- Concrete instance of C2: a unique record whose stored secret the
supplied plaintext matches. -/
theorem C2_attemptAuthentication_unique_match_witness :
    (attemptAuthentication false (fun a b => a == b)
        [{ id := 2, identity := "a@x.com", secret := some "hash" }] "a@x.com" "hash").1
      = AttemptResult.success { id := 2, identity := "a@x.com", secret := some "hash" } :=
  (C2_attemptAuthentication_unique_match false (fun a b => a == b)
      [{ id := 2, identity := "a@x.com", secret := some "hash" }] "a@x.com" "hash"
      { id := 2, identity := "a@x.com", secret := some "hash" }
      (by decide) (by decide)).1 (by decide)

/-- C5: whenever the identity classification fires, enabling
identity-protection makes the implementation hash the fixed placeholder
string once and return the generic `PASSWORD_AUTH_FAILURE`, while with
identity-protection disabled no dummy hash happens and the specific
classification code is returned unchanged. -/
theorem C5_protect_identities_dummy_hash
    (cmp : String → String → Bool) (store : List Item) (identity plaintext : String)
    (c : AuthErrorCode) (h : classifyIdentity store identity = some c) :
    attemptAuthentication true cmp store identity plaintext
        = (AttemptResult.failure .PASSWORD_AUTH_FAILURE, [simulatedPassword])
    ∧ attemptAuthentication false cmp store identity plaintext
        = (AttemptResult.failure c, []) := by
  unfold classifyIdentity at h
  rcases hfind : findByIdentity store identity with _ | ⟨a, _ | ⟨b, rest⟩⟩ <;> rw [hfind] at h
  · simp only [Option.some.injEq] at h
    subst h
    simp [attemptAuthentication, hfind]
  · cases hs : isFalsySecret a.secret with
    | true =>
        simp [hs] at h
        subst h
        simp [attemptAuthentication, hfind, hs]
    | false =>
        simp [hs] at h
  · simp only [Option.some.injEq] at h
    subst h
    simp [attemptAuthentication, hfind]

/-- Concrete instance of C5: an identity with zero matches. -/
theorem C5_protect_identities_dummy_hash_witness :
    attemptAuthentication true (fun _ _ => false) [] "a@x.com" "pw"
        = (AttemptResult.failure .PASSWORD_AUTH_FAILURE, [simulatedPassword])
    ∧ attemptAuthentication false (fun _ _ => false) [] "a@x.com" "pw"
        = (AttemptResult.failure .PASSWORD_AUTH_IDENTITY_NOT_FOUND, []) :=
  C5_protect_identities_dummy_hash (fun _ _ => false) [] "a@x.com" "pw"
    .PASSWORD_AUTH_IDENTITY_NOT_FOUND (by decide)

/-- C6: for token issuance, zero matches yield
`Failure(AUTH_TOKEN_REQUEST_IDENTITY_NOT_FOUND)` and multiple matches
yield `Failure(AUTH_TOKEN_REQUEST_MULTIPLE_IDENTITY_MATCHES)` when
identity-protection is disabled; when enabled the failure carries no
code at all. -/
theorem C6_updateAuthToken_identity_failures
    (t : TokenType) (identity : String) (list : List Item) (bytes : List Nat)
    (now : Nat) (errs : List GqlError) :
    (findByIdentity list identity = [] →
      (updateAuthToken false t identity list bytes now errs).1
          = TokenResult.failure (some .AUTH_TOKEN_REQUEST_IDENTITY_NOT_FOUND)
      ∧ (updateAuthToken true t identity list bytes now errs).1 = TokenResult.failure none)
    ∧ (∀ a b rest, findByIdentity list identity = a :: b :: rest →
      (updateAuthToken false t identity list bytes now errs).1
          = TokenResult.failure (some .AUTH_TOKEN_REQUEST_MULTIPLE_IDENTITY_MATCHES)
      ∧ (updateAuthToken true t identity list bytes now errs).1 = TokenResult.failure none) := by
  refine ⟨fun h => ⟨?_, ?_⟩, fun a b rest h => ⟨?_, ?_⟩⟩ <;> simp [updateAuthToken, h]

/-- Concrete instance of C6: zero matches without protection, multiple
matches with protection. -/
theorem C6_updateAuthToken_identity_failures_witness :
    (updateAuthToken false TokenType.passwordReset "x" [] [] 0 []).1
        = TokenResult.failure (some .AUTH_TOKEN_REQUEST_IDENTITY_NOT_FOUND)
    ∧ (updateAuthToken true TokenType.passwordReset "x"
        [{ id := 1, identity := "x" }, { id := 2, identity := "x" }] [] 0 []).1
        = TokenResult.failure none :=
  ⟨((C6_updateAuthToken_identity_failures TokenType.passwordReset "x" [] [] 0 []).1
      (by decide)).1,
    ((C6_updateAuthToken_identity_failures TokenType.passwordReset "x"
        [{ id := 1, identity := "x" }, { id := 2, identity := "x" }] [] 0 []).2
      { id := 1, identity := "x" } { id := 2, identity := "x" } [] (by decide)).2⟩

/-- C7: when the elevated-privilege write fails during token issuance,
the result is `Failure(AUTH_TOKEN_INTERNAL_ERROR)`, the underlying
error detail (stack, else message) is logged via console.error, and the
value returned to the caller is independent of the error content. -/
theorem C7_persistence_failure_internal_error
    (protect : Bool) (t : TokenType) (identity : String) (list : List Item)
    (bytes : List Nat) (now : Nat) (e : GqlError) (es : List GqlError) (it : Item)
    (h : findByIdentity list identity = [it]) :
    (updateAuthToken protect t identity list bytes now (e :: es)).1
        = TokenResult.failure (some .AUTH_TOKEN_INTERNAL_ERROR)
    ∧ (updateAuthToken protect t identity list bytes now (e :: es)).2.2
        = [consoleErrorArg e]
    ∧ ∀ e2 es2,
        (updateAuthToken protect t identity list bytes now (e2 :: es2)).1
          = (updateAuthToken protect t identity list bytes now (e :: es)).1 := by
  refine ⟨?_, ?_, fun e2 es2 => ?_⟩ <;> simp [updateAuthToken, h]

/-- Concrete instance of C7: a unique match whose persistence write
returns one error. -/
theorem C7_persistence_failure_internal_error_witness :
    (updateAuthToken false TokenType.magicAuth "x" [{ id := 3, identity := "x" }] [] 0
        [{ message := "boom" }]).1 = TokenResult.failure (some .AUTH_TOKEN_INTERNAL_ERROR)
    ∧ (updateAuthToken false TokenType.magicAuth "x" [{ id := 3, identity := "x" }] [] 0
        [{ message := "boom" }]).2.2 = [consoleErrorArg { message := "boom" }] :=
  ⟨(C7_persistence_failure_internal_error false TokenType.magicAuth "x"
      [{ id := 3, identity := "x" }] [] 0 { message := "boom" } []
      { id := 3, identity := "x" } (by decide)).1,
    (C7_persistence_failure_internal_error false TokenType.magicAuth "x"
      [{ id := 3, identity := "x" }] [] 0 { message := "boom" } []
      { id := 3, identity := "x" } (by decide)).2.1⟩

/-- C3: evaluation at a failing input.  With the configured list key
Member and a unique identity match (id 7), issuance succeeds and makes
a single access-control-bypassing write carrying `passwordResetToken =
token`, `passwordResetIssuedAt = now`, `passwordResetRedeemedAt =
unset` for id 7, and applying that write to the matched record does
persist those fields — but the write targets the hard-coded `updateUser`
mutation (list User), not the configured list Member. -/
theorem C3_token_write_targets_fixed_user_list :
    (sendItemPasswordResetLink
        { listKey := "Member", identityField := "email", secretField := "password",
          protectIdentities := false }
        (fun k => if k = "Member" then [{ id := 7, identity := "m@x.com", secret := some "h" }]
          else [])
        "m@x.com" (List.replicate 20 0) 5 [] "user" "users").2.2
      = some { skipAccessControl := true
               targetList := "User"
               id := 7
               tokenType := TokenType.passwordReset
               token := generateToken 20 (List.replicate 20 0)
               issuedAt := 5 }
    ∧ (updateAuthToken false TokenType.passwordReset "m@x.com"
        [{ id := 7, identity := "m@x.com", secret := some "h" }]
        (List.replicate 20 0) 5 []).1
      = TokenResult.success 7 (generateToken 20 (List.replicate 20 0))
    ∧ applyWriteCall [{ id := 7, identity := "m@x.com", secret := some "h" }]
        { skipAccessControl := true
          targetList := "User"
          id := 7
          tokenType := TokenType.passwordReset
          token := generateToken 20 (List.replicate 20 0)
          issuedAt := 5 }
      = [{ id := 7, identity := "m@x.com", secret := some "h",
           passwordResetToken := some (generateToken 20 (List.replicate 20 0)),
           passwordResetIssuedAt := some 5, passwordResetRedeemedAt := none }]
    ∧ "User" ≠ "Member" := by
  refine ⟨by decide, by decide, by decide, by decide⟩

/-- C4: evaluation at a failing input.  With the configured list key
Post and a unique match with the correct secret, the resolver returns
the success payload with the session token and the matched item, but
the session call it makes uses the hard-coded list key User, not the
configured Post. -/
theorem C4_startSession_fixed_user_list_key :
    (authenticateItemWithPassword
        { listKey := "Post", identityField := "email", secretField := "password",
          protectIdentities := false }
        (fun a b => a == b)
        (fun k => if k = "Post" then [{ id := 9, identity := "a@x.com", secret := some "correct" }]
          else [])
        (fun c => "session-" ++ c.listKey ++ "-" ++ toString c.itemId)
        "a@x.com" "correct" "user" "users")
      = (AuthPayload.success ("session-" ++ "User" ++ "-" ++ toString 9)
            { id := 9, identity := "a@x.com", secret := some "correct" },
          some { listKey := "User", itemId := 9 })
    ∧ "User" ≠ "Post" := by
  refine ⟨by decide, by decide⟩

/-- C8: every token produced by `generateToken` with target length 20
consists only of ASCII alphanumeric characters and has length at most
20, and for some random-byte outcomes the stripping step makes the
result strictly shorter than 20. -/
theorem C8_generateToken_alnum_bounded (bytes : List Nat) (h : bytes.length = 20) :
    (generateToken 20 bytes).length ≤ 20
    ∧ (generateToken 20 bytes).toList.all Char.isAlphanum = true
    ∧ ∃ bad : List Nat, bad.length = 20 ∧ (generateToken 20 bad).length < 20 := by
  refine ⟨?_, ?_, List.replicate 20 255, by decide, by decide⟩
  · have h1 : (generateToken 20 bytes).length
        = (((base64Encode bytes).take 20).filter Char.isAlphanum).length := rfl
    rw [h1]
    exact le_trans (List.length_filter_le _ _) (List.length_take_le _ _)
  · have h2 : (generateToken 20 bytes).toList
        = ((base64Encode bytes).take 20).filter Char.isAlphanum := rfl
    rw [h2, List.all_eq_true]
    intro c hc
    exact List.of_mem_filter hc

/-- Concrete instance of C8, at an all-zero byte string. -/
theorem C8_generateToken_alnum_bounded_witness :
    (generateToken 20 (List.replicate 20 0)).length ≤ 20
    ∧ (generateToken 20 (List.replicate 20 0)).toList.all Char.isAlphanum = true
    ∧ ∃ bad : List Nat, bad.length = 20 ∧ (generateToken 20 bad).length < 20 :=
  C8_generateToken_alnum_bounded (List.replicate 20 0) (by decide)

/-- C9: successful redemption sets the RedeemedAt field of the token
type to the current time, and the redeemed token then fails every later
redemption attempt with `AUTH_TOKEN_REDEMPTION_TOKEN_REDEEMED`. -/
theorem C9_redemption_single_use
    (t : TokenType) (v : Nat) (tok : String) (now : Nat) (item updated : Item)
    (h : redeemAuthToken t v tok now item = (RedemptionResult.success, updated)) :
    redeemedAtOf t updated = some now
    ∧ ∀ now2 v2, (redeemAuthToken t v2 tok now2 updated).1
        = RedemptionResult.failure .AUTH_TOKEN_REDEMPTION_TOKEN_REDEEMED := by
  unfold redeemAuthToken at h
  by_cases ht : tokenOf t item = some tok
  · rw [if_pos ht] at h
    by_cases hr : (redeemedAtOf t item).isSome = true
    · rw [if_pos hr] at h
      simp at h
    · rw [if_neg hr] at h
      cases hi : issuedAtOf t item with
      | none => rw [hi] at h; simp at h
      | some iss =>
          rw [hi] at h
          by_cases hw : now - iss ≤ v
          · simp only [hw, if_true] at h
            have hupd : updated = setRedeemedAt t now item := by
              have := congrArg Prod.snd h
              exact this.symm
            subst hupd
            have ht2 : tokenOf t (setRedeemedAt t now item) = some tok := by
              cases t <;> simpa [tokenOf, setRedeemedAt] using ht
            have hr2 : (redeemedAtOf t (setRedeemedAt t now item)).isSome = true := by
              cases t <;> simp [redeemedAtOf, setRedeemedAt]
            refine ⟨by cases t <;> simp [redeemedAtOf, setRedeemedAt], fun now2 v2 => ?_⟩
            unfold redeemAuthToken
            rw [if_pos ht2, if_pos hr2]
          · simp only [hw, if_false] at h
            simp at h
  · rw [if_neg ht] at h
    simp at h

/-- Concrete instance of C9: a password-reset token issued at time 0
redeemed at time 1, then attempted again at time 50 with a generous
validity window. -/
theorem C9_redemption_single_use_witness :
    redeemedAtOf TokenType.passwordReset
        { id := 1, identity := "x", passwordResetToken := some "tok",
          passwordResetIssuedAt := some 0, passwordResetRedeemedAt := some 1 } = some 1
    ∧ (redeemAuthToken TokenType.passwordReset 99 "tok" 50
        { id := 1, identity := "x", passwordResetToken := some "tok",
          passwordResetIssuedAt := some 0, passwordResetRedeemedAt := some 1 }).1
        = RedemptionResult.failure .AUTH_TOKEN_REDEMPTION_TOKEN_REDEEMED :=
  ⟨(C9_redemption_single_use TokenType.passwordReset 5 "tok" 1
      { id := 1, identity := "x", passwordResetToken := some "tok",
        passwordResetIssuedAt := some 0 }
      { id := 1, identity := "x", passwordResetToken := some "tok",
        passwordResetIssuedAt := some 0, passwordResetRedeemedAt := some 1 }
      (by decide)).1,
    (C9_redemption_single_use TokenType.passwordReset 5 "tok" 1
      { id := 1, identity := "x", passwordResetToken := some "tok",
        passwordResetIssuedAt := some 0 }
      { id := 1, identity := "x", passwordResetToken := some "tok",
        passwordResetIssuedAt := some 0, passwordResetRedeemedAt := some 1 }
      (by decide)).2 50 99⟩

/-- C10: with identity-protection enabled, the payload of both
send-link mutations is the empty one (`none`) whether the identity
matched exactly one record (and the write succeeded) or matched zero or
multiple records — runs differing only in whether the identity exists
give identical payloads — while a persistence-write failure is the one
case producing a distinguishable, code-carrying payload. -/
theorem C10_protected_send_link_payload_uniform
    (cfg : AuthSchemaConfig) (hp : cfg.protectIdentities = true)
    (lists1 lists2 : String → List Item) (id1 id2 : String)
    (bytes : List Nat) (now : Nat) (sing plur : String) (it : Item)
    (h1 : findByIdentity (lists1 cfg.listKey) id1 = []
        ∨ ∃ a b rest, findByIdentity (lists1 cfg.listKey) id1 = a :: b :: rest)
    (h2 : findByIdentity (lists2 cfg.listKey) id2 = [it]) :
    (sendItemPasswordResetLink cfg lists1 id1 bytes now [] sing plur).1 = none
    ∧ (sendItemPasswordResetLink cfg lists2 id2 bytes now [] sing plur).1 = none
    ∧ (sendItemMagicAuthLink cfg lists1 id1 bytes now [] sing plur).1 = none
    ∧ (sendItemMagicAuthLink cfg lists2 id2 bytes now [] sing plur).1 = none
    ∧ ∀ e es,
        (sendItemPasswordResetLink cfg lists2 id2 bytes now (e :: es) sing plur).1
          = some (authErrorCodeName .AUTH_TOKEN_INTERNAL_ERROR,
              getErrorMessage cfg.identityField cfg.secretField sing plur
                .AUTH_TOKEN_INTERNAL_ERROR) := by
  refine ⟨?_, ?_, ?_, ?_, fun e es => ?_⟩
  · rcases h1 with h1 | ⟨a, b, rest, h1⟩ <;>
      simp [sendItemPasswordResetLink, sendLinkResolver, updateAuthToken, h1, hp]
  · simp [sendItemPasswordResetLink, sendLinkResolver, updateAuthToken, h2, hp]
  · rcases h1 with h1 | ⟨a, b, rest, h1⟩ <;>
      simp [sendItemMagicAuthLink, sendLinkResolver, updateAuthToken, h1, hp]
  · simp [sendItemMagicAuthLink, sendLinkResolver, updateAuthToken, h2, hp]
  · simp [sendItemPasswordResetLink, sendLinkResolver, updateAuthToken, h2, hp]

/-- Concrete instance of C10: with protection on, an identity that does
not exist and one that does produce the same empty payload. -/
theorem C10_protected_send_link_payload_uniform_witness :
    (sendItemPasswordResetLink
        { listKey := "User", identityField := "email", secretField := "password",
          protectIdentities := true }
        (fun _ => []) "a" [] 0 [] "user" "users").1 = none
    ∧ (sendItemPasswordResetLink
        { listKey := "User", identityField := "email", secretField := "password",
          protectIdentities := true }
        (fun _ => [{ id := 1, identity := "a" }]) "a" [] 0 [] "user" "users").1 = none :=
  ⟨(C10_protected_send_link_payload_uniform
      { listKey := "User", identityField := "email", secretField := "password",
        protectIdentities := true }
      rfl (fun _ => []) (fun _ => [{ id := 1, identity := "a" }]) "a" "a" [] 0
      "user" "users" { id := 1, identity := "a" } (Or.inl (by decide)) (by decide)).1,
    (C10_protected_send_link_payload_uniform
      { listKey := "User", identityField := "email", secretField := "password",
        protectIdentities := true }
      rfl (fun _ => []) (fun _ => [{ id := 1, identity := "a" }]) "a" "a" [] 0
      "user" "users" { id := 1, identity := "a" } (Or.inl (by decide)) (by decide)).2.1⟩

end KeystoneAuth
